import Mathlib

/-!
Shallow embedding of the lotto-max feedback loop:
`lotto_ai/tracking/prediction_tracker.py` (PredictionTracker) and
`lotto_ai/learning/adaptive_learner.py` (AdaptiveLearner).

The sqlite tables `predictions`, `prediction_results` and `adaptive_weights`
are modelled as lists of records inside one `TrackerState`; rows are never
deleted by the code, so AUTOINCREMENT ids are modelled as `length + 1`.
Timestamps (ISO strings produced by `datetime.now().isoformat()`) are
modelled as naturals that the caller passes in; SQL `ORDER BY` is modelled
with a stable sort (`List.insertionSort`).  Python floats are modelled as
rationals.
Python exceptions (`ValueError` from a missing prediction, `max()` on an
empty sequence, `KeyError` from a missing dict key) are modelled with
`Except String`.
-/

set_option maxHeartbeats 1000000

namespace LottoAI

/-- One row of the `predictions` table. -/
structure Prediction where
  pid : Nat
  createdAt : Nat
  targetDrawDate : String
  strategyName : String
  modelVersion : String
  tickets : List (List Int)
  evaluated : Bool
deriving Repr, DecidableEq

/-- One row of the `prediction_results` table. -/
structure ResultRec where
  rid : Nat
  pid : Nat
  actualNumbers : List Int
  evaluatedAt : Nat
  bestMatch : Nat
  totalMatches : Nat
  prizeValue : Nat
  ticketMatches : List Nat
deriving Repr, DecidableEq

/-- One row of the `adaptive_weights` table. -/
structure WeightRow where
  wid : Nat
  updatedAt : Nat
  strategyName : String
  weightType : String
  weightValue : ℚ
  performanceScore : ℚ
  nObs : Nat
deriving Repr, DecidableEq

/-- The persistent database state shared by tracker and learner. -/
structure TrackerState where
  predictions : List Prediction
  results : List ResultRec
  weights : List WeightRow
deriving Repr, DecidableEq

/-- The count `len(set(ticket) & set(actual_numbers))` from `evaluate_prediction`:
the number of distinct members of `ticket` that also occur in `actual`. -/
def matchCount (ticket actual : List Int) : Nat :=
  (ticket.dedup.filter (fun x => decide (x ∈ actual))).length

/-- The fixed payout table of `_calculate_prize_value`
(`prize_table.get(m, 0)`). -/
def prize_table (m : Nat) : Nat :=
  if m = 7 then 10000000
  else if m = 6 then 100000
  else if m = 5 then 1500
  else if m = 4 then 50
  else if m = 3 then 20
  else 0

/-- Model of `_calculate_prize_value`: total prize value over all tickets. -/
def calculate_prize_value (ms : List Nat) : Nat :=
  (ms.map prize_table).sum

/-- The dict returned by `evaluate_prediction`. -/
structure EvalSummary where
  pid : Nat
  strategyName : String
  bestMatch : Nat
  totalMatches : Nat
  prizeValue : Nat
  ticketMatches : List Nat
deriving Repr, DecidableEq

/-- Model of `save_prediction`: inserts one row (no validation of the tickets
whatsoever) and returns the fresh prediction id. -/
def save_prediction (s : TrackerState) (targetDrawDate strategyName : String)
    (tickets : List (List Int)) (modelVersion : String) (now : Nat) :
    Nat × TrackerState :=
  let pid := s.predictions.length + 1
  (pid,
   { s with predictions := s.predictions ++
      [{ pid := pid, createdAt := now, targetDrawDate := targetDrawDate,
         strategyName := strategyName, modelVersion := modelVersion,
         tickets := tickets, evaluated := false }] })

/-- Model of `evaluate_prediction`: looks the prediction up (ValueError if absent),
computes per-ticket match counts, `max`, `sum` and the prize value, inserts
one result row and sets `evaluated = 1` on the prediction.  There is no
check of the `evaluated` flag: an already-evaluated prediction is scored
again and a second result row is inserted.  Python `max(ticket_matches)`
raises ValueError on an empty list, before anything is written. -/
def evaluate_prediction (s : TrackerState) (pid : Nat) (actual : List Int)
    (now : Nat) : Except String (EvalSummary × TrackerState) :=
  match s.predictions.find? (fun p => decide (p.pid = pid)) with
  | none => .error "ValueError: prediction not found"
  | some pred =>
    match pred.tickets.map (fun t => matchCount t actual) with
    | [] => .error "ValueError: max() arg is an empty sequence"
    | m :: ms =>
      let tm := m :: ms
      let best := ms.foldl max m
      let total := tm.sum
      let prize := calculate_prize_value tm
      let res : ResultRec :=
        { rid := s.results.length + 1, pid := pid, actualNumbers := actual,
          evaluatedAt := now, bestMatch := best, totalMatches := total,
          prizeValue := prize, ticketMatches := tm }
      .ok ({ pid := pid, strategyName := pred.strategyName, bestMatch := best,
             totalMatches := total, prizeValue := prize, ticketMatches := tm },
           { s with
             predictions := s.predictions.map
               (fun p => if p.pid = pid then { p with evaluated := true } else p),
             results := s.results ++ [res] })

/-- Model of `get_unevaluated_predictions`: all rows with `evaluated = 0`,
`ORDER BY target_draw_date`. -/
def get_unevaluated_predictions (s : TrackerState) : List Prediction :=
  (s.predictions.filter (fun p => !p.evaluated)).insertionSort
    (fun a b => a.targetDrawDate ≤ b.targetDrawDate)

/-- The dict returned by `get_strategy_performance`. -/
structure PerfSummary where
  nPredictions : Nat
  avgBestMatch : ℚ
  avgTotalMatches : ℚ
  avgPrizeValue : ℚ
  hitRate3plus : ℚ
  bestEver : Nat
  totalPrizeWon : Nat
deriving Repr, DecidableEq

/-- The SQL join `prediction_results JOIN predictions ON prediction_id`
restricted to `strategy_name = ? AND evaluated = 1` (prediction ids are a
primary key, so the join partner is the unique matching prediction row). -/
def resolved_rows (s : TrackerState) (strategyName : String) : List ResultRec :=
  s.results.filter (fun r =>
    match s.predictions.find? (fun p => decide (p.pid = r.pid)) with
    | some p => decide (p.strategyName = strategyName) && p.evaluated
    | none => false)

/-- The joined rows `ORDER BY evaluated_at DESC LIMIT window`. -/
def recent_rows (s : TrackerState) (strategyName : String) (window : Nat) :
    List ResultRec :=
  ((resolved_rows s strategyName).insertionSort
    (fun a b => b.evaluatedAt ≤ a.evaluatedAt)).take window

/-- Model of `get_strategy_performance`: returns `None` when the query yields no
rows, otherwise the windowed statistics (Python float division modelled
over the rationals). -/
def get_strategy_performance (s : TrackerState) (strategyName : String)
    (window : Nat) : Option PerfSummary :=
  match recent_rows s strategyName window with
  | [] => none
  | r :: rs =>
    let rows := r :: rs
    some { nPredictions := rows.length,
           avgBestMatch := ((rows.map (fun x => x.bestMatch)).sum : ℚ) / rows.length,
           avgTotalMatches := ((rows.map (fun x => x.totalMatches)).sum : ℚ) / rows.length,
           avgPrizeValue := ((rows.map (fun x => x.prizeValue)).sum : ℚ) / rows.length,
           hitRate3plus :=
             ((rows.filter (fun x => decide (3 ≤ x.bestMatch))).length : ℚ) / rows.length,
           bestEver := (rs.map (fun x => x.bestMatch)).foldl max r.bestMatch,
           totalPrizeWon := (rows.map (fun x => x.prizeValue)).sum }

/-- One row of the draw-history source (`load_draws`): the fields
`draw_date, n1 .. n7` used by `auto_evaluate_pending`. -/
structure DrawRow where
  draw_date : String
  n1 : Int
  n2 : Int
  n3 : Int
  n4 : Int
  n5 : Int
  n6 : Int
  n7 : Int
deriving Repr, DecidableEq

/-- The seven numbers of a draw row in fixed field order, as extracted by
`[int(draw.iloc[0][f"n{i}"]) for i in range(1, 8)]`: the seven numbers
of a draw row in fixed field order. -/
def draw_numbers (d : DrawRow) : List Int :=
  [d.n1, d.n2, d.n3, d.n4, d.n5, d.n6, d.n7]

/-- The lookup `df_draws[df_draws["draw_date"] == target_date]` followed by `iloc[0]`:
the first row with the given date, if any. -/
def find_draw (draws : List DrawRow) (date : String) : Option DrawRow :=
  draws.find? (fun d => decide (d.draw_date = date))

/-- The `for pred in pending` loop of `auto_evaluate_pending`, threading
the database state and the `evaluated_count` accumulator. -/
def auto_eval_loop (pending : List Prediction) (draws : List DrawRow)
    (s : TrackerState) (now count : Nat) : Except String (Nat × TrackerState) :=
  match pending with
  | [] => .ok (count, s)
  | p :: rest =>
    match find_draw draws p.targetDrawDate with
    | none => auto_eval_loop rest draws s now count
    | some d =>
      match evaluate_prediction s p.pid (draw_numbers d) now with
      | .error e => .error e
      | .ok (_, s₁) => auto_eval_loop rest draws s₁ now (count + 1)

/-- Model of `auto_evaluate_pending`: evaluate every unevaluated prediction whose
target draw date occurs in the draw history; report the count. -/
def auto_evaluate_pending (s : TrackerState) (draws : List DrawRow)
    (now : Nat) : Except String (Nat × TrackerState) :=
  auto_eval_loop (get_unevaluated_predictions s) draws s now 0

/-- The per-weight dict entry built by `get_current_weights`. -/
structure WeightInfo where
  value : ℚ
  performance : ℚ
  nObs : Nat
deriving Repr, DecidableEq

/-- The weight rows of one strategy, `ORDER BY updated_at DESC`. -/
def strategy_weight_rows (s : TrackerState) (strategyName : String) :
    List WeightRow :=
  (s.weights.filter (fun w => decide (w.strategyName = strategyName))).insertionSort
    (fun a b => b.updatedAt ≤ a.updatedAt)

/-- Model of `get_current_weights`: the Python loop `for row in rows:
weights[row[0]] = {...}` over the DESC-ordered rows.  A later iteration
overwrites an earlier one with the same `weight_type`, so the dict entry
that survives is the LAST row of the DESC order, i.e. the oldest snapshot
for each weight name. -/
def get_current_weights (s : TrackerState) (strategyName : String) :
    String → Option WeightInfo :=
  (strategy_weight_rows s strategyName).foldl
    (fun dict row => fun k =>
      if k = row.weightType then
        some { value := row.weightValue, performance := row.performanceScore,
               nObs := row.nObs }
      else dict k)
    (fun _ => none)

/-- Model of `_initialize_weights`: seeds the defaults for `hybrid_v1` only when
the whole `adaptive_weights` table is empty. -/
def initialize_weights (s : TrackerState) (now : Nat) : TrackerState :=
  if s.weights.isEmpty then
    { s with weights := [
      { wid := 1, updatedAt := now, strategyName := "hybrid_v1",
        weightType := "frequency_ratio", weightValue := 7/10,
        performanceScore := 0, nObs := 0 },
      { wid := 2, updatedAt := now, strategyName := "hybrid_v1",
        weightType := "random_ratio", weightValue := 3/10,
        performanceScore := 0, nObs := 0 } ] }
  else s

/-- The dict returned by `update_weights` on success. -/
structure UpdateSummary where
  frequencyWeight : ℚ
  randomWeight : ℚ
  performanceScore : ℚ
  nObservations : Nat
deriving Repr, DecidableEq

/-- Model of `update_weights`: guard (`None` when no performance data or fewer
than 5 windowed results, with no state change), then the threshold step
rule on the current frequency weight, then the insert of one
frequency/random snapshot pair.  `current["frequency_ratio"]` raises
KeyError when `get_current_weights` has no such entry.  The
`np.random.beta` sample drawn by the source is never used and is omitted. -/
def update_weights (s : TrackerState) (strategyName : String)
    (window : Nat) (now : Nat) :
    Except String (Option UpdateSummary × TrackerState) :=
  match get_strategy_performance s strategyName window with
  | none => .ok (none, s)
  | some perf =>
    if perf.nPredictions < 5 then .ok (none, s)
    else
      match get_current_weights s strategyName "frequency_ratio" with
      | none => .error "KeyError: frequency_ratio"
      | some cur =>
        let successRate := perf.hitRate3plus
        let newFreq : ℚ :=
          if successRate > 1/20 then min (4/5) (cur.value + 1/20)
          else if successRate < 3/100 then max (3/5) (cur.value - 1/20)
          else cur.value
        let newRand : ℚ := 1 - newFreq
        .ok (some { frequencyWeight := newFreq, randomWeight := newRand,
                    performanceScore := successRate,
                    nObservations := perf.nPredictions },
             { s with weights := s.weights ++ [
                { wid := s.weights.length + 1, updatedAt := now,
                  strategyName := strategyName, weightType := "frequency_ratio",
                  weightValue := newFreq, performanceScore := successRate,
                  nObs := perf.nPredictions },
                { wid := s.weights.length + 2, updatedAt := now,
                  strategyName := strategyName, weightType := "random_ratio",
                  weightValue := newRand, performanceScore := successRate,
                  nObs := perf.nPredictions } ] })

/-- Spec-side ticket invariant (from the spec, for comparison with the
code): exactly 7 distinct numbers, each in [1,50]. -/
def validTicket (t : List Int) : Prop :=
  t.length = 7 ∧ t.Nodup ∧ ∀ x ∈ t, 1 ≤ x ∧ x ≤ 50

instance : DecidablePred validTicket := fun t => by
  unfold validTicket; infer_instance

/-- Spec-side reading of `currentWeights` (from the spec, for comparison
with the code): the most recent snapshot per weight name, i.e. the first
entry of the DESC-ordered history for each weight name. -/
def current_weights_spec (s : TrackerState) (strategyName : String) :
    String → Option WeightInfo := fun k =>
  ((strategy_weight_rows s strategyName).find?
      (fun w => decide (w.weightType = k))).map
    (fun w => { value := w.weightValue, performance := w.performanceScore,
                nObs := w.nObs })

/-! ## Concrete states used by witnesses and counterexamples -/

def empty_state : TrackerState := { predictions := [], results := [], weights := [] }

/-- A generic evaluated/unevaluated prediction row for test states. -/
def sample_pred (i : Nat) (strat date : String) (ev : Bool) : Prediction :=
  { pid := i, createdAt := 0, targetDrawDate := date, strategyName := strat,
    modelVersion := "1.0", tickets := [[1, 2, 3, 4, 5, 6, 7]], evaluated := ev }

/-- A generic result row with a given best-match count. -/
def sample_res (i bm : Nat) : ResultRec :=
  { rid := i, pid := i, actualNumbers := [], evaluatedAt := i, bestMatch := bm,
    totalMatches := bm, prizeValue := prize_table bm, ticketMatches := [bm] }

/-- One saved prediction with the ticket of the spec scenario. -/
def c3_state : TrackerState :=
  (save_prediction empty_state "2025-01-03" "hybrid_v1" [[1, 2, 3, 4, 5, 6, 7]]
    "1.0" 0).2

/-- The prediction row stored inside `c3_state`. -/
def c3_pred : Prediction :=
  { pid := 1, createdAt := 0, targetDrawDate := "2025-01-03",
    strategyName := "hybrid_v1", modelVersion := "1.0",
    tickets := [[1, 2, 3, 4, 5, 6, 7]], evaluated := false }

/-- State `c3_state` after one evaluation against the scenario draw: the
prediction is resolved and carries one result row. -/
def c1_state : TrackerState :=
  match evaluate_prediction c3_state 1 [1, 2, 3, 8, 9, 10, 11] 1 with
  | .ok (_, s₂) => s₂
  | .error _ => empty_state

/-- The result row stored inside `c1_state` by the first evaluation. -/
def c1_result : ResultRec :=
  { rid := 1, pid := 1, actualNumbers := [1, 2, 3, 8, 9, 10, 11],
    evaluatedAt := 1, bestMatch := 3, totalMatches := 3, prizeValue := 20,
    ticketMatches := [3] }

/-- The prediction row of `c1_state` (resolved). -/
def c1_pred : Prediction := { c3_pred with evaluated := true }

/-- Two `frequency_ratio` snapshots: the seed at time 1 and a newer one at
time 2. -/
def c2_state : TrackerState :=
  { predictions := [], results := [],
    weights := [
      { wid := 1, updatedAt := 1, strategyName := "hybrid_v1",
        weightType := "frequency_ratio", weightValue := 7/10,
        performanceScore := 0, nObs := 0 },
      { wid := 2, updatedAt := 2, strategyName := "hybrid_v1",
        weightType := "frequency_ratio", weightValue := 3/4,
        performanceScore := 1/2, nObs := 6 } ] }

/-- Six resolved results with best-match counts `[3,1,0,4,3,2]` (the spec
scenario) and the seeded default weights. -/
def c4_state : TrackerState :=
  { predictions := [sample_pred 1 "hybrid_v1" "d" true, sample_pred 2 "hybrid_v1" "d" true,
      sample_pred 3 "hybrid_v1" "d" true, sample_pred 4 "hybrid_v1" "d" true,
      sample_pred 5 "hybrid_v1" "d" true, sample_pred 6 "hybrid_v1" "d" true],
    results := [sample_res 1 3, sample_res 2 1, sample_res 3 0, sample_res 4 4,
      sample_res 5 3, sample_res 6 2],
    weights := (initialize_weights empty_state 0).weights }

/-- One resolved result for `hybrid_v1`. -/
def c5_state : TrackerState :=
  { predictions := [sample_pred 1 "hybrid_v1" "d" true],
    results := [sample_res 1 3], weights := [] }

/-- Five resolved results for strategy `other`, but not a single weight
snapshot for it. -/
def c8_state : TrackerState :=
  { predictions := [sample_pred 1 "other" "d" true, sample_pred 2 "other" "d" true,
      sample_pred 3 "other" "d" true, sample_pred 4 "other" "d" true,
      sample_pred 5 "other" "d" true],
    results := [sample_res 1 3, sample_res 2 1, sample_res 3 0, sample_res 4 4,
      sample_res 5 3],
    weights := [] }

/-- Two pending predictions; only the first target date has a draw. -/
def c9_state : TrackerState :=
  { predictions := [sample_pred 1 "hybrid_v1" "2025-01-03" false,
      sample_pred 2 "hybrid_v1" "2025-01-07" false],
    results := [], weights := [] }

/-- Draw history holding only the 2025-01-03 draw. -/
def c9_draws : List DrawRow :=
  [{ draw_date := "2025-01-03", n1 := 1, n2 := 2, n3 := 3, n4 := 4, n5 := 5,
     n6 := 6, n7 := 7 }]

/-- A prediction saved with an empty ticket list. -/
def c10_state : TrackerState :=
  (save_prediction empty_state "2025-01-03" "hybrid_v1" [] "1.0" 0).2

/-- The empty-portfolio prediction row stored inside `c10_state`. -/
def c10_pred : Prediction :=
  { pid := 1, createdAt := 0, targetDrawDate := "2025-01-03",
    strategyName := "hybrid_v1", modelVersion := "1.0", tickets := [],
    evaluated := false }

/-- The performance summary of `c4_state` over a window of 20. -/
def c4_perf : PerfSummary :=
  { nPredictions := 6, avgBestMatch := 13/6, avgTotalMatches := 13/6,
    avgPrizeValue := 15, hitRate3plus := 1/2, bestEver := 4,
    totalPrizeWon := 90 }

/-- The current `frequency_ratio` entry of `c4_state`. -/
def c4_cur : WeightInfo := { value := 7/10, performance := 0, nObs := 0 }

/-- The performance summary of `c8_state` over a window of 20. -/
def c8_perf : PerfSummary :=
  { nPredictions := 5, avgBestMatch := 11/5, avgTotalMatches := 11/5,
    avgPrizeValue := 18, hitRate3plus := 3/5, bestEver := 4,
    totalPrizeWon := 90 }

/-- Sets the resolved flag of a prediction whose id was scheduled for
evaluation by the reconciliation loop. -/
def flagIfEvaluated (pids : List Nat) (p : Prediction) : Prediction :=
  if p.pid ∈ pids then { p with evaluated := true } else p

/-! ## Helper lemmas -/

theorem le_foldl_max (l : List Nat) (a : Nat) : a ≤ l.foldl max a := by
  induction l generalizing a with
  | nil => exact le_refl a
  | cons b t ih => exact le_trans (Nat.le_max_left a b) (ih (max a b))

theorem mem_le_foldl_max (l : List Nat) (a x : Nat) (hx : x ∈ l) :
    x ≤ l.foldl max a := by
  induction l generalizing a with
  | nil => cases hx
  | cons b t ih =>
    rcases List.mem_cons.mp hx with h | h
    · subst h
      exact le_trans (Nat.le_max_right a x) (le_foldl_max t (max a x))
    · exact ih (max a b) h

theorem foldl_max_mem (l : List Nat) (a : Nat) :
    l.foldl max a = a ∨ l.foldl max a ∈ l := by
  induction l generalizing a with
  | nil => exact Or.inl rfl
  | cons b t ih =>
    rcases ih (max a b) with h | h
    · rcases max_choice a b with hm | hm
      · exact Or.inl (by rw [List.foldl_cons, h, hm])
      · exact Or.inr (by
          rw [List.foldl_cons, h, hm]
          exact List.mem_cons_self b t)
    · exact Or.inr (List.mem_cons_of_mem b h)

theorem matchCount_eq_card (t a : List Int) :
    matchCount t a = (t.toFinset ∩ a.toFinset).card := by
  have hnd : (t.dedup.filter (fun x => decide (x ∈ a))).Nodup :=
    t.nodup_dedup.filter _
  rw [matchCount, ← List.toFinset_card_of_nodup hnd]
  congr 1
  ext x
  simp [List.mem_filter, List.mem_dedup, List.mem_toFinset, Finset.mem_inter]

theorem matchCount_le_length (t a : List Int) : matchCount t a ≤ a.length := by
  rw [matchCount_eq_card]
  exact le_trans (Finset.card_le_card (Finset.inter_subset_right)) a.toFinset_card_le

/-- The result record inserted by a successful `evaluate_prediction`. -/
def mkResultRec (s : TrackerState) (pid : Nat) (actual : List Int) (now : Nat)
    (m : Nat) (ms : List Nat) : ResultRec :=
  { rid := s.results.length + 1, pid := pid, actualNumbers := actual,
    evaluatedAt := now, bestMatch := ms.foldl max m,
    totalMatches := (m :: ms).sum, prizeValue := calculate_prize_value (m :: ms),
    ticketMatches := m :: ms }

theorem evaluate_prediction_eq (s : TrackerState) (pid : Nat) (actual : List Int)
    (now : Nat) (pred : Prediction) (m : Nat) (ms : List Nat)
    (hfind : s.predictions.find? (fun p => decide (p.pid = pid)) = some pred)
    (hm : pred.tickets.map (fun t => matchCount t actual) = m :: ms) :
    evaluate_prediction s pid actual now = .ok
      ({ pid := pid, strategyName := pred.strategyName,
         bestMatch := ms.foldl max m, totalMatches := (m :: ms).sum,
         prizeValue := calculate_prize_value (m :: ms), ticketMatches := m :: ms },
       { s with
         predictions := s.predictions.map
           (fun p => if p.pid = pid then { p with evaluated := true } else p),
         results := s.results ++ [mkResultRec s pid actual now m ms] }) := by
  rw [evaluate_prediction, hfind]
  simp only [hm, mkResultRec]

theorem evaluate_prediction_not_found (s : TrackerState) (pid : Nat)
    (actual : List Int) (now : Nat)
    (hfind : s.predictions.find? (fun p => decide (p.pid = pid)) = none) :
    evaluate_prediction s pid actual now = .error "ValueError: prediction not found" := by
  rw [evaluate_prediction, hfind]

theorem evaluate_prediction_empty_tickets (s : TrackerState) (pid : Nat)
    (actual : List Int) (now : Nat) (pred : Prediction)
    (hfind : s.predictions.find? (fun p => decide (p.pid = pid)) = some pred)
    (hempty : pred.tickets = []) :
    evaluate_prediction s pid actual now =
      .error "ValueError: max() arg is an empty sequence" := by
  rw [evaluate_prediction, hfind]
  simp only [hempty, List.map_nil]

theorem get_strategy_performance_none_iff (s : TrackerState) (strat : String)
    (window : Nat) :
    get_strategy_performance s strat window = none ↔
      recent_rows s strat window = [] := by
  cases hr : recent_rows s strat window with
  | nil => simp [get_strategy_performance, hr]
  | cons r rs => simp [get_strategy_performance, hr]

theorem get_strategy_performance_eq (s : TrackerState) (strat : String)
    (window : Nat) (r : ResultRec) (rs : List ResultRec)
    (hr : recent_rows s strat window = r :: rs) :
    get_strategy_performance s strat window = some
      { nPredictions := (r :: rs).length,
        avgBestMatch := (((r :: rs).map (fun x => x.bestMatch)).sum : ℚ) / (r :: rs).length,
        avgTotalMatches := (((r :: rs).map (fun x => x.totalMatches)).sum : ℚ) / (r :: rs).length,
        avgPrizeValue := (((r :: rs).map (fun x => x.prizeValue)).sum : ℚ) / (r :: rs).length,
        hitRate3plus :=
          (((r :: rs).filter (fun x => decide (3 ≤ x.bestMatch))).length : ℚ) / (r :: rs).length,
        bestEver := (rs.map (fun x => x.bestMatch)).foldl max r.bestMatch,
        totalPrizeWon := ((r :: rs).map (fun x => x.prizeValue)).sum } := by
  rw [get_strategy_performance, hr]

theorem get_strategy_performance_nPredictions (s : TrackerState) (strat : String)
    (window : Nat) (perf : PerfSummary)
    (h : get_strategy_performance s strat window = some perf) :
    perf.nPredictions = (recent_rows s strat window).length := by
  cases hr : recent_rows s strat window with
  | nil =>
    rw [(get_strategy_performance_none_iff s strat window).mpr hr] at h
    exact absurd h (by simp)
  | cons r rs =>
    rw [get_strategy_performance_eq s strat window r rs hr] at h
    rw [← Option.some.inj h]

/-! ## Claim C3 -/

/-- Claim C3: for every prediction and actual-numbers list of 7 integers,
`evaluate_prediction` computes, per ticket in order, the match count as the
cardinality of the set intersection with the actual numbers (each in
[0,7]), the best match as the maximum over tickets, the total as the sum,
and the prize value as the sum over tickets of the fixed payout table
{7↦10000000, 6↦100000, 5↦1500, 4↦50, 3↦20, ≤2↦0}. -/
theorem evaluate_prediction_correct (s : TrackerState) (pid : Nat)
    (actual : List Int) (now : Nat) (pred : Prediction)
    (hfind : s.predictions.find? (fun p => decide (p.pid = pid)) = some pred)
    (hne : pred.tickets ≠ [])
    (hlen : actual.length = 7) :
    ∃ out s₂, evaluate_prediction s pid actual now = .ok (out, s₂) ∧
      out.ticketMatches =
        pred.tickets.map (fun t => (t.toFinset ∩ actual.toFinset).card) ∧
      (∀ m ∈ out.ticketMatches, m ≤ 7) ∧
      out.bestMatch ∈ out.ticketMatches ∧
      (∀ m ∈ out.ticketMatches, m ≤ out.bestMatch) ∧
      out.totalMatches = out.ticketMatches.sum ∧
      out.prizeValue = (out.ticketMatches.map prize_table).sum ∧
      prize_table 7 = 10000000 ∧ prize_table 6 = 100000 ∧
      prize_table 5 = 1500 ∧ prize_table 4 = 50 ∧ prize_table 3 = 20 ∧
      (∀ m, m ≤ 2 → prize_table m = 0) := by
  cases ht : pred.tickets with
  | nil => exact absurd ht hne
  | cons t ts =>
    have hm : pred.tickets.map (fun u => matchCount u actual) =
        matchCount t actual :: ts.map (fun u => matchCount u actual) := by
      rw [ht, List.map_cons]
    refine ⟨_, _, evaluate_prediction_eq s pid actual now pred _ _ hfind hm, ?_, ?_, ?_, ?_, rfl, rfl, rfl, rfl, rfl, rfl, rfl, ?_⟩
    · show matchCount t actual :: ts.map (fun u => matchCount u actual) =
        (t :: ts).map (fun u => (u.toFinset ∩ actual.toFinset).card)
      rw [List.map_cons]
      congr 1
      · exact matchCount_eq_card t actual
      · exact List.map_congr_left (fun u _ => matchCount_eq_card u actual)
    · show ∀ m ∈ matchCount t actual :: ts.map (fun u => matchCount u actual), m ≤ 7
      refine List.forall_mem_cons.mpr ⟨?_, ?_⟩
      · calc matchCount t actual ≤ actual.length := matchCount_le_length t actual
          _ = 7 := hlen
      · intro m hmem
        obtain ⟨u, _, rfl⟩ := List.mem_map.mp hmem
        calc matchCount u actual ≤ actual.length := matchCount_le_length u actual
          _ = 7 := hlen
    · show (ts.map (fun u => matchCount u actual)).foldl max (matchCount t actual) ∈
        matchCount t actual :: ts.map (fun u => matchCount u actual)
      rcases foldl_max_mem (ts.map (fun u => matchCount u actual)) (matchCount t actual)
        with h | h
      · rw [h]; exact List.mem_cons_self _ _
      · exact List.mem_cons_of_mem _ h
    · show ∀ m ∈ matchCount t actual :: ts.map (fun u => matchCount u actual),
        m ≤ (ts.map (fun u => matchCount u actual)).foldl max (matchCount t actual)
      refine List.forall_mem_cons.mpr ⟨le_foldl_max _ _, ?_⟩
      intro m hmem
      exact mem_le_foldl_max _ _ _ hmem
    · intro m hm2
      interval_cases m <;> rfl

/-- Claim C3 witness: the spec scenario — the single ticket
`[1,2,3,4,5,6,7]` evaluated against the draw `[1,2,3,8,9,10,11]` yields
best match 3 and prize value 20. -/
theorem evaluate_prediction_correct_witness :
    (∃ out s₂, evaluate_prediction c3_state 1 [1, 2, 3, 8, 9, 10, 11] 1 = .ok (out, s₂) ∧
      out.ticketMatches =
        c3_pred.tickets.map (fun t => (t.toFinset ∩ ([1, 2, 3, 8, 9, 10, 11] : List Int).toFinset).card) ∧
      (∀ m ∈ out.ticketMatches, m ≤ 7) ∧
      out.bestMatch ∈ out.ticketMatches ∧
      (∀ m ∈ out.ticketMatches, m ≤ out.bestMatch) ∧
      out.totalMatches = out.ticketMatches.sum ∧
      out.prizeValue = (out.ticketMatches.map prize_table).sum ∧
      prize_table 7 = 10000000 ∧ prize_table 6 = 100000 ∧
      prize_table 5 = 1500 ∧ prize_table 4 = 50 ∧ prize_table 3 = 20 ∧
      (∀ m, m ≤ 2 → prize_table m = 0)) ∧
    (evaluate_prediction c3_state 1 [1, 2, 3, 8, 9, 10, 11] 1).toOption.map
      (fun x => (x.1.bestMatch, x.1.prizeValue)) = some (3, 20) :=
  ⟨evaluate_prediction_correct c3_state 1 [1, 2, 3, 8, 9, 10, 11] 1 c3_pred
    (by rfl) (by decide) (by rfl), by rfl⟩

/-! ## Claim C1 -/

/-- Claim C1 counterexample: `c1_state` already holds a result for
prediction 1, yet a second `evaluate_prediction` call succeeds (no
AlreadyResolvedError is raised): it leaves the original result row in
place and appends a duplicate. -/
theorem evaluate_prediction_no_guard_counterexample :
    (evaluate_prediction c1_state 1 [20, 21, 22, 23, 24, 25, 26] 2).isOk = true ∧
    (evaluate_prediction c1_state 1 [20, 21, 22, 23, 24, 25, 26] 2).toOption.map
        (fun x => x.2.results) =
      some [c1_result,
        { rid := 2, pid := 1, actualNumbers := [20, 21, 22, 23, 24, 25, 26],
          evaluatedAt := 2, bestMatch := 0, totalMatches := 0, prizeValue := 0,
          ticketMatches := [0] }] :=
  ⟨rfl, rfl⟩

/-- Claim C1 amended: `evaluate_prediction` has no resolved-guard.  For a
prediction that already has a result attached, a second call with any
actual numbers succeeds, leaves every existing result row (in particular
the original one) unchanged in place, and appends one more result row. -/
theorem evaluate_prediction_no_guard (s : TrackerState) (pid : Nat)
    (actual : List Int) (now : Nat) (pred : Prediction) (r : ResultRec)
    (hfind : s.predictions.find? (fun p => decide (p.pid = pid)) = some pred)
    (hne : pred.tickets ≠ [])
    (hr : r ∈ s.results) :
    ∃ out s₂, evaluate_prediction s pid actual now = .ok (out, s₂) ∧
      r ∈ s₂.results ∧
      s₂.results.length = s.results.length + 1 ∧
      s₂.results.take s.results.length = s.results := by
  cases ht : pred.tickets with
  | nil => exact absurd ht hne
  | cons t ts =>
    have hm : pred.tickets.map (fun u => matchCount u actual) =
        matchCount t actual :: ts.map (fun u => matchCount u actual) := by
      rw [ht, List.map_cons]
    refine ⟨_, _, evaluate_prediction_eq s pid actual now pred _ _ hfind hm, ?_, ?_, ?_⟩
    · exact List.mem_append_left _ hr
    · show (s.results ++ [mkResultRec s pid actual now _ _]).length = s.results.length + 1
      rw [List.length_append, List.length_singleton]
    · show (s.results ++ [mkResultRec s pid actual now _ _]).take s.results.length = s.results
      rw [List.take_left]

/-- Claim C1 amended witness: re-evaluating the already-resolved
prediction of `c1_state` succeeds and keeps the original result row. -/
theorem evaluate_prediction_no_guard_witness :
    ∃ out s₂,
      evaluate_prediction c1_state 1 [20, 21, 22, 23, 24, 25, 26] 2 = .ok (out, s₂) ∧
      c1_result ∈ s₂.results ∧
      s₂.results.length = c1_state.results.length + 1 ∧
      s₂.results.take c1_state.results.length = c1_state.results :=
  evaluate_prediction_no_guard c1_state 1 [20, 21, 22, 23, 24, 25, 26] 2 c1_pred
    c1_result (by rfl) (by decide) (by decide)

/-! ## Claim C2 -/

/-- Claim C2: evaluating the code at the failing input.  `c2_state` holds
a `frequency_ratio` snapshot 7/10 at time 1 and a newer one 3/4 at time 2.
The DESC-ordered history starts with the newer 3/4 row, yet
`get_current_weights` returns the oldest value 7/10 (its dict-building
loop lets older rows overwrite newer ones), while the spec-side reading
(most recent snapshot per weight name) returns 3/4. -/
theorem get_current_weights_returns_oldest :
    get_current_weights c2_state "hybrid_v1" "frequency_ratio" =
      some { value := 7/10, performance := 0, nObs := 0 } ∧
    current_weights_spec c2_state "hybrid_v1" "frequency_ratio" =
      some { value := 3/4, performance := 1/2, nObs := 6 } ∧
    (strategy_weight_rows c2_state "hybrid_v1").head?.map
        (fun w => (w.updatedAt, w.weightValue)) = some (2, 3/4) :=
  ⟨rfl, rfl, rfl⟩

/-! ## Claim C6 -/

/-- Claim C6: when the performance window holds fewer than 5 results (in
particular when it is empty), `update_weights` returns `None` and leaves
the state — including the weight snapshots — completely unchanged. -/
theorem update_weights_insufficient_data (s : TrackerState) (strat : String)
    (window now : Nat)
    (h5 : (recent_rows s strat window).length < 5) :
    update_weights s strat window now = .ok (none, s) := by
  cases hp : get_strategy_performance s strat window with
  | none => simp only [update_weights, hp]
  | some perf =>
    have hn : perf.nPredictions < 5 := by
      rw [get_strategy_performance_nPredictions s strat window perf hp]
      exact h5
    simp only [update_weights, hp]
    rw [if_pos hn]

/-- Claim C6 witness: one resolved result is not enough; the update
declines and returns the state unchanged. -/
theorem update_weights_insufficient_data_witness :
    (recent_rows c5_state "hybrid_v1" 20).length < 5 ∧
    update_weights c5_state "hybrid_v1" 20 0 = .ok (none, c5_state) :=
  ⟨by decide,
   update_weights_insufficient_data c5_state "hybrid_v1" 20 0 (by decide)⟩

/-! ## Claim C4 -/

/-- Claim C4: a successful weight update applies the threshold step rule
to the current frequency weight f0: hit rate above 0.05 steps to
min(0.80, f0+0.05), below 0.03 to max(0.60, f0-0.05), otherwise keeps f0;
the random weight is exactly 1 - f, so the pair sums to exactly 1. -/
theorem update_weights_step_rule (s : TrackerState) (strat : String)
    (window now : Nat) (perf : PerfSummary) (cur : WeightInfo)
    (hperf : get_strategy_performance s strat window = some perf)
    (h5 : ¬ perf.nPredictions < 5)
    (hcur : get_current_weights s strat "frequency_ratio" = some cur) :
    ∃ u s₂, update_weights s strat window now = .ok (some u, s₂) ∧
      u.frequencyWeight =
        (if perf.hitRate3plus > 1/20 then min (4/5) (cur.value + 1/20)
         else if perf.hitRate3plus < 3/100 then max (3/5) (cur.value - 1/20)
         else cur.value) ∧
      u.randomWeight = 1 - u.frequencyWeight ∧
      u.frequencyWeight + u.randomWeight = 1 ∧
      u.performanceScore = perf.hitRate3plus ∧
      u.nObservations = perf.nPredictions := by
  set f : ℚ := (if perf.hitRate3plus > 1/20 then min (4/5) (cur.value + 1/20)
    else if perf.hitRate3plus < 3/100 then max (3/5) (cur.value - 1/20)
    else cur.value) with hf
  refine ⟨⟨f, 1 - f, perf.hitRate3plus, perf.nPredictions⟩,
    { s with weights := s.weights ++ [
        { wid := s.weights.length + 1, updatedAt := now, strategyName := strat,
          weightType := "frequency_ratio", weightValue := f,
          performanceScore := perf.hitRate3plus, nObs := perf.nPredictions },
        { wid := s.weights.length + 2, updatedAt := now, strategyName := strat,
          weightType := "random_ratio", weightValue := 1 - f,
          performanceScore := perf.hitRate3plus, nObs := perf.nPredictions } ] },
    ?_, rfl, rfl, by ring, rfl, rfl⟩
  simp only [update_weights, hperf, if_neg h5, hcur]

/-- Claim C4 witness: the spec scenario — six results with best matches
[3,1,0,4,3,2] give hit rate 1/2 > 0.05, so the prior frequency weight 0.70
steps to 0.75 and the random weight to 0.25. -/
theorem update_weights_step_rule_witness :
    (∃ u s₂, update_weights c4_state "hybrid_v1" 20 7 = .ok (some u, s₂) ∧
      u.frequencyWeight =
        (if c4_perf.hitRate3plus > 1/20 then min (4/5) (c4_cur.value + 1/20)
         else if c4_perf.hitRate3plus < 3/100 then max (3/5) (c4_cur.value - 1/20)
         else c4_cur.value) ∧
      u.randomWeight = 1 - u.frequencyWeight ∧
      u.frequencyWeight + u.randomWeight = 1 ∧
      u.performanceScore = c4_perf.hitRate3plus ∧
      u.nObservations = c4_perf.nPredictions) ∧
    (if c4_perf.hitRate3plus > 1/20 then min (4/5) (c4_cur.value + 1/20)
     else if c4_perf.hitRate3plus < 3/100 then max (3/5) (c4_cur.value - 1/20)
     else c4_cur.value) = 3/4 ∧
    ((1 : ℚ) - 3/4) = 1/4 :=
  ⟨update_weights_step_rule c4_state "hybrid_v1" 20 7 c4_perf c4_cur
    (by
      norm_num [get_strategy_performance, recent_rows, resolved_rows, c4_state,
        sample_pred, sample_res, prize_table, initialize_weights, empty_state,
        List.insertionSort, List.orderedInsert, c4_perf])
    (by decide) rfl,
   by norm_num [c4_perf, c4_cur], by norm_num⟩

/-! ## Claim C8 -/

/-- Claim C8 counterexample: strategy `other` has 5 windowed results and
no `frequency_ratio` snapshot, and `update_weights` raises KeyError
instead of completing with the default 0.70. -/
theorem update_weights_missing_weight_counterexample :
    update_weights c8_state "other" 20 7 = .error "KeyError: frequency_ratio" ∧
    (recent_rows c8_state "other" 20).length = 5 ∧
    get_current_weights c8_state "other" "frequency_ratio" = none :=
  ⟨rfl, rfl, rfl⟩

/-- Claim C8 amended: when no `frequency_ratio` snapshot exists for the
strategy, a weight update that passes the 5-result guard raises KeyError
rather than defaulting to 0.70; the 0.70 default is only seeded by
initialization, for `hybrid_v1`, when the whole weights table is empty. -/
theorem update_weights_keyerror (s : TrackerState) (strat : String)
    (window now : Nat) (perf : PerfSummary)
    (hperf : get_strategy_performance s strat window = some perf)
    (h5 : ¬ perf.nPredictions < 5)
    (hnone : get_current_weights s strat "frequency_ratio" = none) :
    update_weights s strat window now = .error "KeyError: frequency_ratio" ∧
    (∀ (s' : TrackerState) (now' : Nat), s'.weights = [] →
      get_current_weights (initialize_weights s' now') "hybrid_v1" "frequency_ratio" =
        some { value := 7/10, performance := 0, nObs := 0 }) := by
  constructor
  · simp only [update_weights, hperf, if_neg h5, hnone]
  · intro s' now' hw
    have hempty : s'.weights.isEmpty = true := by rw [hw]; rfl
    rw [initialize_weights, if_pos hempty]
    simp [get_current_weights, strategy_weight_rows, List.insertionSort,
      List.orderedInsert]

/-- Claim C8 amended witness: at `c8_state` the update raises KeyError;
initialization of an empty table seeds the 0.70 default for hybrid_v1. -/
theorem update_weights_keyerror_witness :
    update_weights c8_state "other" 20 7 = .error "KeyError: frequency_ratio" ∧
    (∀ (s' : TrackerState) (now' : Nat), s'.weights = [] →
      get_current_weights (initialize_weights s' now') "hybrid_v1" "frequency_ratio" =
        some { value := 7/10, performance := 0, nObs := 0 }) :=
  update_weights_keyerror c8_state "other" 20 7 c8_perf
    (by
      norm_num [get_strategy_performance, recent_rows, resolved_rows, c8_state,
        sample_pred, sample_res, prize_table, List.insertionSort,
        List.orderedInsert, c8_perf])
    (by decide) rfl

/-! ## Claim C5 -/

/-- Claim C5 counterexample: with window size 0 (SQL `LIMIT 0`),
`get_strategy_performance` returns `None` even though one resolved result
exists for the strategy, so absence is not equivalent to having zero
resolved results for arbitrary window sizes. -/
theorem get_strategy_performance_window_zero_counterexample :
    get_strategy_performance c5_state "hybrid_v1" 0 = none ∧
    resolved_rows c5_state "hybrid_v1" = [sample_res 1 3] :=
  ⟨rfl, rfl⟩

/-- Claim C5 amended: for every positive window size,
`get_strategy_performance` returns `None` exactly when zero resolved
results exist for the strategy; otherwise `hit_rate_3plus` equals
count(best_match ≥ 3)/n exactly, lies in [0,1], and the three averages
are the arithmetic means over the up-to-window most recent results. -/
theorem get_strategy_performance_windowed (s : TrackerState) (strat : String)
    (window : Nat) (hw : 1 ≤ window) :
    (get_strategy_performance s strat window = none ↔ resolved_rows s strat = []) ∧
    (∀ perf, get_strategy_performance s strat window = some perf →
      perf.nPredictions = (recent_rows s strat window).length ∧
      perf.nPredictions ≠ 0 ∧
      perf.nPredictions ≤ window ∧
      perf.hitRate3plus =
        (((recent_rows s strat window).filter (fun x => decide (3 ≤ x.bestMatch))).length : ℚ) /
          (recent_rows s strat window).length ∧
      0 ≤ perf.hitRate3plus ∧ perf.hitRate3plus ≤ 1 ∧
      perf.avgBestMatch =
        (((recent_rows s strat window).map (fun x => x.bestMatch)).sum : ℚ) /
          (recent_rows s strat window).length ∧
      perf.avgTotalMatches =
        (((recent_rows s strat window).map (fun x => x.totalMatches)).sum : ℚ) /
          (recent_rows s strat window).length ∧
      perf.avgPrizeValue =
        (((recent_rows s strat window).map (fun x => x.prizeValue)).sum : ℚ) /
          (recent_rows s strat window).length) := by
  constructor
  · rw [get_strategy_performance_none_iff]
    unfold recent_rows
    rw [List.take_eq_nil_iff]
    constructor
    · rintro (h0 | hsorted)
      · omega
      · have hperm := List.perm_insertionSort
          (fun a b => b.evaluatedAt ≤ a.evaluatedAt) (resolved_rows s strat)
        rw [hsorted] at hperm
        exact hperm.symm.eq_nil
    · intro h
      right
      rw [h]
      rfl
  · intro perf hperf
    cases hr : recent_rows s strat window with
    | nil =>
      rw [(get_strategy_performance_none_iff s strat window).mpr hr] at hperf
      exact absurd hperf (by simp)
    | cons r rs =>
      rw [get_strategy_performance_eq s strat window r rs hr] at hperf
      have hp := Option.some.inj hperf
      rw [← hp]
      have hlen : (r :: rs).length ≤ window := by
        rw [← hr]
        unfold recent_rows
        exact List.length_take_le window _
      have hpos : (0 : ℚ) < ((r :: rs).length : ℚ) := by
        exact_mod_cast Nat.succ_pos rs.length
      refine ⟨rfl, by simp, hlen, rfl, ?_, ?_, rfl, rfl, rfl⟩
      · exact div_nonneg (Nat.cast_nonneg _) (Nat.cast_nonneg _)
      · rw [div_le_one hpos]
        exact_mod_cast List.length_filter_le _ (r :: rs)

/-- Claim C5 amended witness: with window 1 and one resolved result the
summary is present and the hit rate is 1/1. -/
theorem get_strategy_performance_windowed_witness :
    (1 ≤ 1) ∧
    ((get_strategy_performance c5_state "hybrid_v1" 1 = none ↔
        resolved_rows c5_state "hybrid_v1" = []) ∧
    (∀ perf, get_strategy_performance c5_state "hybrid_v1" 1 = some perf →
      perf.nPredictions = (recent_rows c5_state "hybrid_v1" 1).length ∧
      perf.nPredictions ≠ 0 ∧
      perf.nPredictions ≤ 1 ∧
      perf.hitRate3plus =
        (((recent_rows c5_state "hybrid_v1" 1).filter (fun x => decide (3 ≤ x.bestMatch))).length : ℚ) /
          (recent_rows c5_state "hybrid_v1" 1).length ∧
      0 ≤ perf.hitRate3plus ∧ perf.hitRate3plus ≤ 1 ∧
      perf.avgBestMatch =
        (((recent_rows c5_state "hybrid_v1" 1).map (fun x => x.bestMatch)).sum : ℚ) /
          (recent_rows c5_state "hybrid_v1" 1).length ∧
      perf.avgTotalMatches =
        (((recent_rows c5_state "hybrid_v1" 1).map (fun x => x.totalMatches)).sum : ℚ) /
          (recent_rows c5_state "hybrid_v1" 1).length ∧
      perf.avgPrizeValue =
        (((recent_rows c5_state "hybrid_v1" 1).map (fun x => x.prizeValue)).sum : ℚ) /
          (recent_rows c5_state "hybrid_v1" 1).length)) :=
  ⟨le_refl 1, get_strategy_performance_windowed c5_state "hybrid_v1" 1 (le_refl 1)⟩

/-! ## Claim C7 -/

/-- Claim C7 counterexample: the ticket `[1,1,1]` violates the
7-distinct-numbers-in-[1,50] invariant, yet `save_prediction` accepts the
portfolio, persists it and returns prediction id 1 — no ValidationError
exists. -/
theorem save_prediction_no_validation_counterexample :
    ¬ validTicket [1, 1, 1] ∧
    (save_prediction empty_state "2025-01-03" "hybrid_v1" [[1, 1, 1]] "1.0" 0).1 = 1 ∧
    (save_prediction empty_state "2025-01-03" "hybrid_v1" [[1, 1, 1]] "1.0" 0).2.predictions.map
      (fun p => (p.pid, p.tickets)) = [(1, [[1, 1, 1]])] :=
  ⟨by decide, rfl, rfl⟩

/-- Claim C7 amended: `save_prediction` performs no ticket validation at
all: every portfolio, even one containing a ticket that violates the
7-distinct-in-[1,50] invariant, is persisted unchanged under a fresh
prediction id with the resolved flag false. -/
theorem save_prediction_no_validation (s : TrackerState) (d st mv : String)
    (ts : List (List Int)) (t : List Int) (now : Nat)
    (ht : t ∈ ts) (hbad : ¬ validTicket t) :
    (save_prediction s d st ts mv now).1 = s.predictions.length + 1 ∧
    (save_prediction s d st ts mv now).2.predictions =
      s.predictions ++ [{ pid := s.predictions.length + 1, createdAt := now,
                          targetDrawDate := d, strategyName := st,
                          modelVersion := mv, tickets := ts,
                          evaluated := false }] ∧
    ∃ p ∈ (save_prediction s d st ts mv now).2.predictions,
      p.tickets = ts ∧ t ∈ p.tickets ∧ ¬ validTicket t ∧ p.evaluated = false := by
  refine ⟨rfl, rfl, ⟨_, List.mem_append_right _ (List.mem_singleton_self _),
    rfl, ht, hbad, rfl⟩⟩

/-- Claim C7 amended witness: the invalid portfolio `[[1,1,1]]` is
persisted by `save_prediction`. -/
theorem save_prediction_no_validation_witness :
    (save_prediction empty_state "2025-01-03" "hybrid_v1" [[1, 1, 1]] "1.0" 0).1 =
      empty_state.predictions.length + 1 ∧
    (save_prediction empty_state "2025-01-03" "hybrid_v1" [[1, 1, 1]] "1.0" 0).2.predictions =
      empty_state.predictions ++ [{ pid := empty_state.predictions.length + 1,
                                    createdAt := 0, targetDrawDate := "2025-01-03",
                                    strategyName := "hybrid_v1", modelVersion := "1.0",
                                    tickets := [[1, 1, 1]], evaluated := false }] ∧
    ∃ p ∈ (save_prediction empty_state "2025-01-03" "hybrid_v1" [[1, 1, 1]] "1.0" 0).2.predictions,
      p.tickets = [[1, 1, 1]] ∧ [1, 1, 1] ∈ p.tickets ∧ ¬ validTicket [1, 1, 1] ∧
      p.evaluated = false :=
  save_prediction_no_validation empty_state "2025-01-03" "hybrid_v1" "1.0"
    [[1, 1, 1]] [1, 1, 1] 0 (by decide) (by decide)

/-! ## Claim C10 -/

/-- Claim C10: `save_prediction` accepts an empty portfolio (persisting a
prediction with zero tickets), but evaluating a prediction whose ticket
list is empty fails with the `max()`-on-empty-sequence ValueError before
any result row is written; evaluation succeeds whenever the ticket list
is non-empty. -/
theorem empty_portfolio_saved_not_evaluable (s : TrackerState)
    (d st mv : String) (now pid : Nat) (actual : List Int) (now' : Nat)
    (pred : Prediction)
    (hfind : s.predictions.find? (fun p => decide (p.pid = pid)) = some pred) :
    ((save_prediction s d st [] mv now).2.predictions.getLast?).map
        (fun p => (p.pid, p.tickets, p.evaluated)) =
      some (s.predictions.length + 1, ([] : List (List Int)), false) ∧
    (pred.tickets = [] →
      evaluate_prediction s pid actual now' =
        .error "ValueError: max() arg is an empty sequence") ∧
    (pred.tickets ≠ [] → (evaluate_prediction s pid actual now').isOk = true) := by
  refine ⟨?_, ?_, ?_⟩
  · show ((s.predictions ++ [({ pid := s.predictions.length + 1, createdAt := now,
                                targetDrawDate := d, strategyName := st,
                                modelVersion := mv, tickets := [],
                                evaluated := false } : Prediction)]).getLast?).map
          (fun p => (p.pid, p.tickets, p.evaluated)) =
      some (s.predictions.length + 1, ([] : List (List Int)), false)
    rw [List.getLast?_concat]
    rfl
  · intro h
    exact evaluate_prediction_empty_tickets s pid actual now' pred hfind h
  · intro h
    cases ht : pred.tickets with
    | nil => exact absurd ht h
    | cons t ts =>
      have hm : pred.tickets.map (fun u => matchCount u actual) =
          matchCount t actual :: ts.map (fun u => matchCount u actual) := by
        rw [ht, List.map_cons]
      rw [evaluate_prediction_eq s pid actual now' pred _ _ hfind hm]
      rfl

/-- Claim C10 witness: the empty portfolio saved in `c10_state` is
persisted, and evaluating it fails with the ValueError of `max()` on an
empty sequence. -/
theorem empty_portfolio_saved_not_evaluable_witness :
    ((save_prediction c10_state "x" "hybrid_v1" [] "1.0" 5).2.predictions.getLast?).map
        (fun p => (p.pid, p.tickets, p.evaluated)) =
      some (c10_state.predictions.length + 1, ([] : List (List Int)), false) ∧
    (c10_pred.tickets = [] →
      evaluate_prediction c10_state 1 [1, 2, 3, 4, 5, 6, 7] 6 =
        .error "ValueError: max() arg is an empty sequence") ∧
    (c10_pred.tickets ≠ [] →
      (evaluate_prediction c10_state 1 [1, 2, 3, 4, 5, 6, 7] 6).isOk = true) :=
  empty_portfolio_saved_not_evaluable c10_state "x" "hybrid_v1" "1.0" 5 1
    [1, 2, 3, 4, 5, 6, 7] 6 c10_pred (by rfl)

/-! ## Claim C9 -/

theorem flagIfEvaluated_nil (p : Prediction) : flagIfEvaluated [] p = p := by
  unfold flagIfEvaluated
  rw [if_neg]
  simp

theorem flagIfEvaluated_keep (pids : List Nat) (p : Prediction) :
    flagIfEvaluated pids { p with evaluated := true } = { p with evaluated := true } := by
  unfold flagIfEvaluated
  split <;> rfl

theorem auto_eval_loop_no_draw (draws : List DrawRow) (now : Nat) :
    ∀ (pending : List Prediction) (s : TrackerState) (count : Nat),
      (∀ q ∈ pending, find_draw draws q.targetDrawDate = none) →
      auto_eval_loop pending draws s now count = .ok (count, s) := by
  intro pending
  induction pending with
  | nil => intro s count _; rfl
  | cons q rest ih =>
    intro s count h
    simp only [auto_eval_loop, h q (List.mem_cons_self q rest)]
    exact ih s count (fun r hr => h r (List.mem_cons_of_mem q hr))

theorem auto_eval_loop_spec (draws : List DrawRow) (now : Nat) :
    ∀ (pending : List Prediction) (s : TrackerState) (count : Nat),
      (∀ p ∈ s.predictions, p.tickets ≠ []) →
      (∀ q ∈ pending, ∃ p ∈ s.predictions, p.pid = q.pid) →
      ∃ s₂,
        auto_eval_loop pending draws s now count = .ok
          (count + (pending.filter
            (fun x => (find_draw draws x.targetDrawDate).isSome)).length, s₂) ∧
        s₂.predictions = s.predictions.map (flagIfEvaluated
          ((pending.filter (fun x => (find_draw draws x.targetDrawDate).isSome)).map
            (fun x => x.pid))) ∧
        s₂.results.length = s.results.length + (pending.filter
          (fun x => (find_draw draws x.targetDrawDate).isSome)).length ∧
        s₂.weights = s.weights := by
  intro pending
  induction pending with
  | nil =>
    intro s count _ _
    refine ⟨s, by simp [auto_eval_loop], ?_, by simp, rfl⟩
    rw [List.filter_nil, List.map_nil,
      funext flagIfEvaluated_nil, List.map_id']
  | cons q rest ih =>
    intro s count hs hq
    cases hd : find_draw draws q.targetDrawDate with
    | none =>
      obtain ⟨s₂, h1, h2, h3, h4⟩ :=
        ih s count hs (fun r hr => hq r (List.mem_cons_of_mem q hr))
      have hfilter : (q :: rest).filter
            (fun x => (find_draw draws x.targetDrawDate).isSome) =
          rest.filter (fun x => (find_draw draws x.targetDrawDate).isSome) := by
        simp [List.filter_cons, hd]
      rw [hfilter]
      refine ⟨s₂, ?_, h2, h3, h4⟩
      simp only [auto_eval_loop, hd]
      exact h1
    | some d =>
      obtain ⟨p0, hp0, hp0pid⟩ := hq q (List.mem_cons_self q rest)
      have hfindsome : (s.predictions.find? (fun p => decide (p.pid = q.pid))).isSome := by
        rw [List.find?_isSome]
        exact ⟨p0, hp0, by simp [hp0pid]⟩
      obtain ⟨pred, hpred⟩ := Option.isSome_iff_exists.mp hfindsome
      have hpredmem : pred ∈ s.predictions := List.mem_of_find?_eq_some hpred
      have hptickets : pred.tickets ≠ [] := hs pred hpredmem
      cases ht : pred.tickets with
      | nil => exact absurd ht hptickets
      | cons t ts =>
        have hm : pred.tickets.map (fun u => matchCount u (draw_numbers d)) =
            matchCount t (draw_numbers d) ::
              ts.map (fun u => matchCount u (draw_numbers d)) := by
          rw [ht, List.map_cons]
        have heval := evaluate_prediction_eq s q.pid (draw_numbers d) now pred _ _ hpred hm
        have hstep : auto_eval_loop (q :: rest) draws s now count =
            auto_eval_loop rest draws
              { s with
                predictions := s.predictions.map
                  (fun p => if p.pid = q.pid then { p with evaluated := true } else p),
                results := s.results ++ [mkResultRec s q.pid (draw_numbers d) now
                  (matchCount t (draw_numbers d))
                  (ts.map (fun u => matchCount u (draw_numbers d)))] }
              now (count + 1) := by
          simp only [auto_eval_loop, hd, heval]
        have hs' : ∀ p ∈ (s.predictions.map
            (fun p => if p.pid = q.pid then { p with evaluated := true } else p)),
            p.tickets ≠ [] := by
          intro p hp
          obtain ⟨p', hp', rfl⟩ := List.mem_map.mp hp
          have hkeep : (if p'.pid = q.pid then { p' with evaluated := true } else p').tickets
              = p'.tickets := by split <;> rfl
          rw [hkeep]
          exact hs p' hp'
        have hq' : ∀ r ∈ rest, ∃ p ∈ (s.predictions.map
            (fun p => if p.pid = q.pid then { p with evaluated := true } else p)),
            p.pid = r.pid := by
          intro r hr
          obtain ⟨p', hp', hpid⟩ := hq r (List.mem_cons_of_mem q hr)
          refine ⟨(if p'.pid = q.pid then { p' with evaluated := true } else p'),
            List.mem_map_of_mem _ hp', ?_⟩
          have hkeep : (if p'.pid = q.pid then { p' with evaluated := true } else p').pid
              = p'.pid := by split <;> rfl
          rw [hkeep]
          exact hpid
        obtain ⟨s₂, h1, h2, h3, h4⟩ := ih
          { s with
            predictions := s.predictions.map
              (fun p => if p.pid = q.pid then { p with evaluated := true } else p),
            results := s.results ++ [mkResultRec s q.pid (draw_numbers d) now
              (matchCount t (draw_numbers d))
              (ts.map (fun u => matchCount u (draw_numbers d)))] }
          (count + 1) hs' hq'
        have hfilter : (q :: rest).filter
              (fun x => (find_draw draws x.targetDrawDate).isSome) =
            q :: rest.filter (fun x => (find_draw draws x.targetDrawDate).isSome) := by
          simp [List.filter_cons, hd]
        refine ⟨s₂, ?_, ?_, ?_, ?_⟩
        · rw [hstep, h1, hfilter, List.length_cons]
          have harith : count + 1 +
              (rest.filter (fun x => (find_draw draws x.targetDrawDate).isSome)).length =
              count + ((rest.filter
                (fun x => (find_draw draws x.targetDrawDate).isSome)).length + 1) := by
            omega
          rw [harith]
        · rw [h2, hfilter, List.map_cons, List.map_map]
          apply List.map_congr_left
          intro p hp
          simp only [Function.comp]
          by_cases hpq : p.pid = q.pid
          · rw [if_pos hpq, flagIfEvaluated_keep, flagIfEvaluated,
              if_pos (by rw [hpq]; exact List.mem_cons_self _ _)]
          · rw [if_neg hpq]
            by_cases hmem : p.pid ∈ (rest.filter
                (fun x => (find_draw draws x.targetDrawDate).isSome)).map (fun x => x.pid)
            · rw [flagIfEvaluated, flagIfEvaluated, if_pos hmem,
                if_pos (List.mem_cons_of_mem _ hmem)]
            · rw [flagIfEvaluated, flagIfEvaluated, if_neg hmem,
                if_neg (by simp [List.mem_cons, hpq, hmem])]
        · rw [h3, hfilter, List.length_cons]
          simp only [List.length_append, List.length_singleton]
          omega
        · exact h4

/-- Claim C9: `auto_evaluate_pending` evaluates exactly the unresolved
predictions whose target draw date appears in the draw history, skips the
others without error, reports the count, and — because each evaluation
sets the resolved flag — an immediate second call with the same draw
history changes nothing and evaluates zero predictions. -/
theorem auto_evaluate_pending_idempotent (s : TrackerState)
    (draws : List DrawRow) (now now' : Nat)
    (hticks : ∀ p ∈ s.predictions, p.tickets ≠ [])
    (hnodup : (s.predictions.map (fun p => p.pid)).Nodup) :
    ∃ s₂,
      auto_evaluate_pending s draws now = .ok
        (((get_unevaluated_predictions s).filter
          (fun x => (find_draw draws x.targetDrawDate).isSome)).length, s₂) ∧
      s₂.predictions = s.predictions.map (fun p =>
        if p.evaluated = false ∧ (find_draw draws p.targetDrawDate).isSome = true
        then { p with evaluated := true } else p) ∧
      s₂.results.length = s.results.length +
        ((get_unevaluated_predictions s).filter
          (fun x => (find_draw draws x.targetDrawDate).isSome)).length ∧
      s₂.weights = s.weights ∧
      auto_evaluate_pending s₂ draws now' = .ok (0, s₂) := by
  have hq : ∀ q ∈ get_unevaluated_predictions s, ∃ p ∈ s.predictions, p.pid = q.pid := by
    intro q hqmem
    rw [get_unevaluated_predictions] at hqmem
    have hq1 : q ∈ s.predictions.filter (fun p => !p.evaluated) :=
      (List.mem_insertionSort _).mp hqmem
    exact ⟨q, List.mem_of_mem_filter hq1, rfl⟩
  obtain ⟨s₂, h1, h2, h3, h4⟩ :=
    auto_eval_loop_spec draws now (get_unevaluated_predictions s) s 0 hticks hq
  rw [Nat.zero_add] at h1
  have hpoint : ∀ p ∈ s.predictions,
      flagIfEvaluated (((get_unevaluated_predictions s).filter
        (fun x => (find_draw draws x.targetDrawDate).isSome)).map (fun x => x.pid)) p =
      (if p.evaluated = false ∧ (find_draw draws p.targetDrawDate).isSome = true
       then { p with evaluated := true } else p) := by
    intro p hp
    by_cases hcond : p.evaluated = false ∧ (find_draw draws p.targetDrawDate).isSome = true
    · have hpf : p ∈ s.predictions.filter (fun x => !x.evaluated) :=
        List.mem_filter.mpr ⟨hp, by simp [hcond.1]⟩
      have hpend : p ∈ get_unevaluated_predictions s := by
        rw [get_unevaluated_predictions]
        exact (List.mem_insertionSort _).mpr hpf
      have hpfd : p ∈ (get_unevaluated_predictions s).filter
          (fun x => (find_draw draws x.targetDrawDate).isSome) :=
        List.mem_filter.mpr ⟨hpend, hcond.2⟩
      rw [if_pos hcond, flagIfEvaluated, if_pos (List.mem_map_of_mem _ hpfd)]
    · rw [if_neg hcond, flagIfEvaluated, if_neg ?nmem]
      case nmem =>
        intro hmem'
        obtain ⟨x, hx, hxpid⟩ := List.mem_map.mp hmem'
        have hx1 := List.mem_filter.mp hx
        have hx2 : x ∈ s.predictions.filter (fun y => !y.evaluated) := by
          have := hx1.1
          rw [get_unevaluated_predictions] at this
          exact (List.mem_insertionSort _).mp this
        have hx3 : x ∈ s.predictions := List.mem_of_mem_filter hx2
        have hx4 : (!x.evaluated) = true := (List.mem_filter.mp hx2).2
        have hxp : x = p := List.inj_on_of_nodup_map hnodup hx3 hp hxpid
        apply hcond
        constructor
        · rw [← hxp]
          simpa using hx4
        · rw [← hxp]
          exact hx1.2
  have h2' : s₂.predictions = s.predictions.map (fun p =>
      if p.evaluated = false ∧ (find_draw draws p.targetDrawDate).isSome = true
      then { p with evaluated := true } else p) :=
    h2.trans (List.map_congr_left hpoint)
  have hnone : ∀ q ∈ get_unevaluated_predictions s₂,
      find_draw draws q.targetDrawDate = none := by
    intro q hqmem
    rw [get_unevaluated_predictions] at hqmem
    have hq2 : q ∈ s₂.predictions.filter (fun p => !p.evaluated) :=
      (List.mem_insertionSort _).mp hqmem
    have hq3 : q ∈ s₂.predictions := List.mem_of_mem_filter hq2
    have hq4 : (!q.evaluated) = true := (List.mem_filter.mp hq2).2
    rw [h2'] at hq3
    obtain ⟨p, hp, hpq⟩ := List.mem_map.mp hq3
    by_cases hcond : p.evaluated = false ∧ (find_draw draws p.targetDrawDate).isSome = true
    · rw [if_pos hcond] at hpq
      rw [← hpq] at hq4
      simp at hq4
    · rw [if_neg hcond] at hpq
      subst hpq
      have hev : p.evaluated = false := by simpa using hq4
      have hns : ¬ (find_draw draws p.targetDrawDate).isSome = true :=
        fun hsome => hcond ⟨hev, hsome⟩
      exact Option.not_isSome_iff_eq_none.mp hns
  have hsecond := auto_eval_loop_no_draw draws now'
    (get_unevaluated_predictions s₂) s₂ 0 hnone
  exact ⟨s₂, h1, h2', h3, h4, hsecond⟩

/-- Claim C9 witness: two pending predictions, one with an available draw;
reconciliation evaluates exactly that one, and a second run is a no-op. -/
theorem auto_evaluate_pending_idempotent_witness :
    ∃ s₂,
      auto_evaluate_pending c9_state c9_draws 10 = .ok
        (((get_unevaluated_predictions c9_state).filter
          (fun x => (find_draw c9_draws x.targetDrawDate).isSome)).length, s₂) ∧
      s₂.predictions = c9_state.predictions.map (fun p =>
        if p.evaluated = false ∧ (find_draw c9_draws p.targetDrawDate).isSome = true
        then { p with evaluated := true } else p) ∧
      s₂.results.length = c9_state.results.length +
        ((get_unevaluated_predictions c9_state).filter
          (fun x => (find_draw c9_draws x.targetDrawDate).isSome)).length ∧
      s₂.weights = c9_state.weights ∧
      auto_evaluate_pending s₂ c9_draws 11 = .ok (0, s₂) :=
  auto_evaluate_pending_idempotent c9_state c9_draws 10 11 (by decide) (by decide)

end LottoAI
